import Mathlib

/-!
Verification of the batch-generation pipeline of TileDB-ML
(`src/tiledb/ml/readers/_tensor_gen.py`).

The embedding follows the source file closely:

* `TileDBNumpyGenerator` — the dense tensor generator (class of the same name).
* `SparseTileDBTensorGenerator` — the sparse tensor generator.
* `tensor_generator` — the top-level batch sequencer.  In Python this is a
  generator function: calling it only packages the arguments into a suspended
  generator frame; the body (generator construction, `stop_offset` defaulting
  and all store reads) runs when the iterator is driven.  We model the call as
  building a `GenArgs` record and the drive as `GenArgs.run`.

External collaborators are modelled at their interface:

* The TileDB array store (`ModelArray`): a dense array hands back, per
  attribute, the rows of the requested half-open slice (out-of-domain dense
  slices fail, as TileDB reads do); a sparse array hands back the coordinate
  tuples falling in the requested row range together with the per-attribute
  values aligned to them.  The source pops the two coordinate arrays out of
  the result dict by dimension name; the model keeps them as separate fields.
* `scipy.sparse`: `csr_matrix ((data, (row, col)), shape)` checks that all
  indices are inside `shape` (scipy raises `ValueError` otherwise) and stores
  the triples; CSR row slicing `m[a:b]` keeps the entries whose row is in the
  (clipped, Python-slice style) range and rebases it; `tocoo` exposes the
  triples.  Canonical duplicate-summing and ordering inside scipy are not
  modelled: no claim below depends on them.

The buffer windower `iter_batches` lives in `_batch_utils.py`, which is not
part of the inspected source; it is modelled from the specification (§4.1).
-/

namespace TileDBML

/-- Python slice semantics `l[a:b]` for non-negative bounds: clipping, never
an error. -/
def pySlice (l : List α) (a b : Nat) : List α :=
  (l.take b).drop a

/-- Schema information the pipeline reads from an array handle:
`schema.sparse`, `schema.shape` (whose length is `schema.ndim`),
`schema.domain.dim(i).name` and `schema.attr(name).dtype`. -/
structure ModelSchema where
  sparse : Bool
  shape : List Nat
  dimNames : List String
  attrDtype : String → String

/-- A model array store handle.  `denseData` gives, per attribute, the list
of rows (each row an opaque payload of type `α`); `sparseRows`, `sparseCols`
and `sparseData` give the coordinate tuples and, per attribute, the values
aligned with them.  Only the fields matching `schema.sparse` are meaningful. -/
structure ModelArray (α : Type) where
  schema : ModelSchema
  denseData : String → List α
  sparseRows : List Int
  sparseCols : List Int
  sparseData : String → List α

/-- Number of rows of the array (`array.shape[0]`). -/
def ModelArray.rowCount (arr : ModelArray α) : Nat :=
  arr.schema.shape.headD 0

/-- Dense read `query[a:b]`: per requested attribute, the rows of the slice.
TileDB rejects a dense slice that runs past the array domain. -/
def denseRead (arr : ModelArray α) (attrs : List String) (a b : Nat) :
    Except String (List (List α)) :=
  if b ≤ arr.rowCount then
    .ok (attrs.map fun t => pySlice (arr.denseData t) a b)
  else
    .error "TileDBError: dense read out of domain"

/-- The coordinate tuples of a sparse array, zipped with one attribute's
values: `(row, (col, value))`. -/
def sparseTriples (arr : ModelArray α) (t : String) : List (Int × Int × α) :=
  arr.sparseRows.zip (arr.sparseCols.zip (arr.sparseData t))

/-- Sparse read of one attribute over `[a, b)`: the store returns exactly the
coordinate tuples whose row coordinate falls in the requested range. -/
def sparseSel (arr : ModelArray α) (t : String) (a b : Nat) :
    List (Int × Int × α) :=
  (sparseTriples arr t).filter fun e => (a : Int) ≤ e.1 ∧ e.1 < (b : Int)

/-- A scipy CSR matrix, abstracted to what the pipeline observes: its shape
and its entries `(row, col, value)`. -/
structure Csr (α : Type) where
  nrows : Nat
  ncols : Nat
  entries : List (Nat × Nat × α)

/-- `scipy.sparse.csr_matrix((data, (row, col)), shape)`: scipy validates
that every index is inside `shape` and raises `ValueError` otherwise. -/
def csr_matrix (triples : List (Int × Int × α)) (nrows ncols : Nat) :
    Except String (Csr α) :=
  if triples.all (fun e =>
      0 ≤ e.1 ∧ e.1 < (nrows : Int) ∧ 0 ≤ e.2.1 ∧ e.2.1 < (ncols : Int)) then
    .ok ⟨nrows, ncols, triples.map fun e => (e.1.toNat, e.2.1.toNat, e.2.2)⟩
  else
    .error "ValueError: index out of bounds"

/-- CSR row slicing `m[a:b]` with Python clipping: the resulting matrix has
`min b nrows - min a nrows` rows and keeps the entries of the selected rows,
rebased by the (clipped) lower bound. -/
def Csr.rowSlice (m : Csr α) (a b : Nat) : Csr α :=
  { nrows := min b m.nrows - min a m.nrows
    ncols := m.ncols
    entries := (m.entries.filter fun e =>
        min a m.nrows ≤ e.1 ∧ e.1 < min b m.nrows).map
      fun e => (e.1 - min a m.nrows, e.2.1, e.2.2) }

/-- A tensor yielded to the consumer: either a dense tensor (its buffered
rows) or a sparse-tensor value `(nonzero_values, coordinates, dense_shape)`
plus the attribute dtype handed to `_tensor_from_coo`. -/
inductive MLTensor (α : Type) where
  | dense (rows : List α)
  | sparse (data : List α) (coords : List (Nat × Nat)) (denseShape : List Nat)
      (dtype : String)
deriving Repr, DecidableEq

/-- The leading dimension of a yielded tensor. -/
def MLTensor.leadingDim : MLTensor α → Nat
  | .dense rows => rows.length
  | .sparse _ _ denseShape _ => denseShape.headD 0

/-- The coordinate tuples carried by a yielded tensor (empty for dense). -/
def MLTensor.coordList : MLTensor α → List (Nat × Nat)
  | .dense _ => []
  | .sparse _ coords _ _ => coords

/-- Explicit bind on `Except`, used to keep the definitions easy to case on. -/
def bindE (x : Except String β) (f : β → Except String γ) : Except String γ :=
  match x with
  | .error e => .error e
  | .ok v => f v

/-- Fold a fallible function over a list, collecting the results
(the per-attribute comprehension of the source; an exception propagates). -/
def mapE (f : β → Except String γ) : List β → Except String (List γ)
  | [] => .ok []
  | b :: l => bindE (f b) fun c => bindE (mapE f l) fun cs => .ok (c :: cs)

/-- `TileDBNumpyGenerator`: dense tensor generator state.  `__init__` stores
the query (array plus requested attributes); `_buf_arrays` is unset until the
first `read_buffer`. -/
structure TileDBNumpyGenerator (α : Type) where
  arr : ModelArray α
  attrs : List String
  buf_arrays : Option (List (List α))

/-- `TileDBNumpyGenerator.__init__` via the base-class constructor. -/
def TileDBNumpyGenerator.init (arr : ModelArray α) (attrs : List String) :
    TileDBNumpyGenerator α :=
  ⟨arr, attrs, none⟩

/-- `TileDBNumpyGenerator.read_buffer`: one bulk read, stored as the current
buffer (one tensor per attribute, in attribute order). -/
def TileDBNumpyGenerator.read_buffer (g : TileDBNumpyGenerator α)
    (a b : Nat) : Except String (TileDBNumpyGenerator α) :=
  bindE (denseRead g.arr g.attrs a b) fun bufs =>
    .ok { g with buf_arrays := some bufs }

/-- `TileDBNumpyGenerator.iter_tensors`: slices each buffered array with the
buffer-relative slice.  Accessing `_buf_arrays` before any `read_buffer`
raises `AttributeError`. -/
def TileDBNumpyGenerator.iter_tensors (g : TileDBNumpyGenerator α)
    (s e : Nat) : Except String (List (MLTensor α)) :=
  match g.buf_arrays with
  | none => .error "AttributeError: _buf_arrays"
  | some bufs => .ok (bufs.map fun buf => .dense (pySlice buf s e))

/-- `SparseTileDBTensorGenerator` state: the two dimension names, the non-row
shape `schema.shape[1:]`, the attribute dtypes, and the CSR buffer (unset
until the first `read_buffer`). -/
structure SparseTileDBTensorGenerator (α : Type) where
  arr : ModelArray α
  attrs : List String
  row_dim : String
  col_dim : String
  row_shape : List Nat
  attr_dtypes : List String
  buf_csrs : Option (List (Csr α))

/-- `SparseTileDBTensorGenerator.__init__`: rejects any schema whose
dimensionality is not 2 before touching anything else, then records the
dimension names, the row shape and the attribute dtypes. -/
def SparseTileDBTensorGenerator.init (arr : ModelArray α)
    (attrs : List String) :
    Except String (SparseTileDBTensorGenerator α) :=
  if arr.schema.shape.length ≠ 2 then
    .error "NotImplementedError: Only 2D sparse tensors are currently supported"
  else
    .ok ⟨arr, attrs, arr.schema.dimNames.headD "", (arr.schema.dimNames.drop 1).headD "",
      arr.schema.shape.drop 1, attrs.map arr.schema.attrDtype, none⟩

/-- `SparseTileDBTensorGenerator.read_buffer`: reads the coordinate tuples of
the slice, subtracts `array_slice.start` from every row coordinate and builds
one CSR matrix per attribute with shape `(stop - start, *row_shape)`. -/
def SparseTileDBTensorGenerator.read_buffer
    (g : SparseTileDBTensorGenerator α) (a b : Nat) :
    Except String (SparseTileDBTensorGenerator α) :=
  bindE (mapE (fun t =>
      csr_matrix ((sparseSel g.arr t a b).map fun e =>
          (e.1 - (a : Int), e.2.1, e.2.2))
        (b - a) (g.row_shape.headD 0)) g.attrs) fun csrs =>
    .ok { g with buf_csrs := some csrs }

/-- `SparseTileDBTensorGenerator.iter_tensors`: row-slices each buffered CSR,
converts to COO, stacks row/column coordinates, and yields per attribute the
sparse-tensor value handed to `_tensor_from_coo`.  Accessing `_buf_csrs`
before any `read_buffer` raises `AttributeError`. -/
def SparseTileDBTensorGenerator.iter_tensors
    (g : SparseTileDBTensorGenerator α) (s e : Nat) :
    Except String (List (MLTensor α)) :=
  match g.buf_csrs with
  | none => .error "AttributeError: _buf_csrs"
  | some csrs => .ok ((csrs.zip g.attr_dtypes).map fun p =>
      let batch := p.1.rowSlice s e
      .sparse (batch.entries.map fun q => q.2.2)
        (batch.entries.map fun q => (q.1, q.2.1))
        (batch.nrows :: g.row_shape) p.2)

/-- One step record of the windower: per stream an optional buffer-read
slice and the (buffer-relative) extraction slice, all half-open `[lo, hi)`. -/
structure Batch where
  x_read_slice : Option (Nat × Nat)
  y_read_slice : Option (Nat × Nat)
  x_buffer_slice : Nat × Nat
  y_buffer_slice : Nat × Nat
deriving Repr, DecidableEq

/-- The length of a half-open slice. -/
def sliceLen (p : Nat × Nat) : Nat := p.2 - p.1

/-- Cursor state of the dual-stream windower: the shared global row cursor
and, per stream, the global range `[bs, be)` covered by the stream's current
buffer. -/
structure WindowState where
  pos : Nat
  xbs : Nat
  xbe : Nat
  ybs : Nat
  ybe : Nat
deriving Repr, DecidableEq

/-- Modelled from the spec: one stream's refill decision (§4.1).  If the
stream's buffer is exhausted at the cursor, its read slice for this step is
`[cursor, min (cursor + buffer_size) stop)` and the buffer range becomes that
slice; otherwise no read is signalled and the buffer is reused. -/
def refill (bufsz stop pos bs be : Nat) : Option (Nat × Nat) × Nat × Nat :=
  if be ≤ pos then (some (pos, min (pos + bufsz) stop), pos, min (pos + bufsz) stop)
  else (none, bs, be)

/-- Modelled from the spec: the extraction width of one windower step (§4.1)
— after any refills, the minimum of the two streams' remaining-in-buffer
rows, which keeps both streams aligned and never straddles a buffer
boundary. -/
def extractW (xbuf ybuf stop : Nat) (s : WindowState) : Nat :=
  min ((refill xbuf stop s.pos s.xbs s.xbe).2.2 - s.pos)
    ((refill ybuf stop s.pos s.ybs s.ybe).2.2 - s.pos)

/-- Modelled from the spec: the step record emitted by one windower step
(§4.1); each stream's extract slice is expressed relative to its own
buffer's origin. -/
def stepBatch (xbuf ybuf stop : Nat) (s : WindowState) : Batch :=
  ⟨(refill xbuf stop s.pos s.xbs s.xbe).1,
   (refill ybuf stop s.pos s.ybs s.ybe).1,
   (s.pos - (refill xbuf stop s.pos s.xbs s.xbe).2.1,
    s.pos - (refill xbuf stop s.pos s.xbs s.xbe).2.1 + extractW xbuf ybuf stop s),
   (s.pos - (refill ybuf stop s.pos s.ybs s.ybe).2.1,
    s.pos - (refill ybuf stop s.pos s.ybs s.ybe).2.1 + extractW xbuf ybuf stop s)⟩

/-- Modelled from the spec: the windower cursor state after one step (§4.1). -/
def stepNext (xbuf ybuf stop : Nat) (s : WindowState) : WindowState :=
  ⟨s.pos + extractW xbuf ybuf stop s,
   (refill xbuf stop s.pos s.xbs s.xbe).2.1,
   (refill xbuf stop s.pos s.xbs s.xbe).2.2,
   (refill ybuf stop s.pos s.ybs s.ybe).2.1,
   (refill ybuf stop s.pos s.ybs s.ybe).2.2⟩

/-- Modelled from the spec: the windower loop (§4.1), with fuel to make the
recursion structural (each productive step advances the cursor by at least
one row whenever both buffer sizes are positive). -/
def iterBatchesAux (xbuf ybuf stop : Nat) : Nat → WindowState → List Batch
  | 0, _ => []
  | fuel + 1, s =>
    if s.pos < stop then
      stepBatch xbuf ybuf stop s ::
        iterBatchesAux xbuf ybuf stop fuel (stepNext xbuf ybuf stop s)
    else []

/-- Modelled from the spec: `iter_batches` of the uninspected module
`_batch_utils.py` (§4.1).  Both streams start with exhausted (empty) buffers
at `start`, and the sequence ends when the shared cursor reaches `stop`. -/
def iter_batches (xbuf ybuf start stop : Nat) : List Batch :=
  iterBatchesAux xbuf ybuf stop (stop - start) ⟨start, start, start, start, start⟩

/-- The generator picked per array by `tensor_generator`, dispatched once on
`array.schema.sparse`. -/
inductive TensorGen (α : Type) where
  | dense (g : TileDBNumpyGenerator α)
  | sparse (g : SparseTileDBTensorGenerator α)

/-- `get_buffer_size_generator` inside `tensor_generator`: sparse arrays get
a `SparseTileDBTensorGenerator` (whose constructor may reject the schema),
dense arrays a `TileDBNumpyGenerator`. -/
def get_buffer_size_generator (arr : ModelArray α) (attrs : List String) :
    Except String (TensorGen α) :=
  if arr.schema.sparse then
    bindE (SparseTileDBTensorGenerator.init arr attrs) fun g => .ok (.sparse g)
  else
    .ok (.dense (TileDBNumpyGenerator.init arr attrs))

/-- Dispatched `read_buffer`. -/
def TensorGen.read_buffer (g : TensorGen α) (a b : Nat) :
    Except String (TensorGen α) :=
  match g with
  | .dense d => bindE (d.read_buffer a b) fun d => .ok (.dense d)
  | .sparse s => bindE (s.read_buffer a b) fun s => .ok (.sparse s)

/-- Dispatched `iter_tensors`. -/
def TensorGen.iter_tensors (g : TensorGen α) (s e : Nat) :
    Except String (List (MLTensor α)) :=
  match g with
  | .dense d => d.iter_tensors s e
  | .sparse sp => sp.iter_tensors s e

/-- The body of `tensor_generator`'s loop: for each windower step, refill a
stream's buffer only when the step carries a read slice, then materialize
both streams' tensors over their extract slices and yield the feature
tensors followed by the label tensors. -/
def runBatches (xg yg : TensorGen α) :
    List Batch → Except String (List (List (MLTensor α)))
  | [] => .ok []
  | b :: rest =>
    bindE (match b.x_read_slice with
           | some s => xg.read_buffer s.1 s.2
           | none => .ok xg) fun xg =>
    bindE (match b.y_read_slice with
           | some s => yg.read_buffer s.1 s.2
           | none => .ok yg) fun yg =>
    bindE (xg.iter_tensors b.x_buffer_slice.1 b.x_buffer_slice.2) fun xt =>
    bindE (yg.iter_tensors b.y_buffer_slice.1 b.y_buffer_slice.2) fun yt =>
    bindE (runBatches xg yg rest) fun out =>
    .ok ((xt ++ yt) :: out)

/-- The arguments captured when `tensor_generator` is called.  `tensor_generator`
is a Python generator function: the call itself only creates a suspended
generator over these arguments and runs none of the body. -/
structure GenArgs (α : Type) where
  x_array : ModelArray α
  y_array : ModelArray α
  x_buffer_size : Nat
  y_buffer_size : Nat
  x_attrs : List String
  y_attrs : List String
  start_offset : Nat
  stop_offset : Nat

/-- Calling `tensor_generator(...)`: packages the arguments into a suspended
generator; no validation, no generator construction and no read happens here. -/
def tensor_generator (x_array y_array : ModelArray α)
    (x_buffer_size y_buffer_size : Nat) (x_attrs y_attrs : List String)
    (start_offset stop_offset : Nat) : GenArgs α :=
  ⟨x_array, y_array, x_buffer_size, y_buffer_size, x_attrs, y_attrs,
    start_offset, stop_offset⟩

/-- Driving the generator returned by `tensor_generator` to exhaustion: the
body constructs the per-array generators, defaults `stop_offset` to
`x_array.shape[0]` when it is falsy (zero), and folds the windower's steps. -/
def GenArgs.run (a : GenArgs α) : Except String (List (List (MLTensor α))) :=
  bindE (get_buffer_size_generator a.x_array a.x_attrs) fun xg =>
  bindE (get_buffer_size_generator a.y_array a.y_attrs) fun yg =>
  runBatches xg yg
    (iter_batches a.x_buffer_size a.y_buffer_size a.start_offset
      (if a.stop_offset = 0 then a.x_array.rowCount else a.stop_offset))

/-! ### Concrete example stores, used to witness the theorems below. -/

/-- A dense 3 × 2 example array with three rows per attribute. -/
def dArrEx : ModelArray Nat :=
  ⟨⟨false, [3, 2], ["d0", "d1"], fun _ => "f32"⟩, (fun _ => [10, 11, 12]),
    [], [], (fun _ => [])⟩

/-- A dense 1 × 2 example array with a single row. -/
def dArrOne : ModelArray Nat :=
  ⟨⟨false, [1, 2], ["d0", "d1"], fun _ => "f32"⟩, (fun _ => [99]),
    [], [], (fun _ => [])⟩

/-- A sparse 3 × 4 example array with four stored coordinate tuples. -/
def sArrEx : ModelArray Nat :=
  ⟨⟨true, [3, 4], ["rows", "cols"], fun _ => "f64"⟩, (fun _ => []),
    [0, 1, 2, 2], [0, 3, 1, 2], (fun _ => [7, 8, 9, 5])⟩

/-- A sparse example array with a three-dimensional schema. -/
def sArr3d : ModelArray Nat :=
  ⟨⟨true, [3, 4, 5], ["rows", "cols", "depth"], fun _ => "f64"⟩, (fun _ => []),
    [], [], (fun _ => [])⟩

/-- The CSR buffer that a successful sparse `read_buffer` over `[a, b)`
stores: per requested attribute, the selected coordinate tuples with the row
coordinate rebased by `a`, in a matrix of shape `(b - a, *row_shape)`. -/
def sparseBufOf (g : SparseTileDBTensorGenerator α) (a b : Nat) : List (Csr α) :=
  g.attrs.map fun t =>
    ⟨b - a, g.row_shape.headD 0,
      (sparseSel g.arr t a b).map fun e =>
        ((e.1 - (a : Int)).toNat, e.2.1.toNat, e.2.2)⟩

/-- A freshly constructed sparse generator over `sArrEx`, as produced by
`SparseTileDBTensorGenerator.init sArrEx ["data"]`. -/
def sGenEx : SparseTileDBTensorGenerator Nat :=
  ⟨sArrEx, ["data"], "rows", "cols", [4], ["f64"], none⟩

/-- `sGenEx` after `read_buffer` over the slice `[0, 2)`. -/
def sGenExRead : SparseTileDBTensorGenerator Nat :=
  ⟨sArrEx, ["data"], "rows", "cols", [4], ["f64"],
    some [⟨2, 4, [(0, 0, 7), (1, 3, 8)]⟩]⟩

/-- The batch sequence produced over the dense example pair with buffer
sizes 2. -/
def outEx8 : List (List (MLTensor Nat)) :=
  [[.dense [10, 11], .dense [10, 11]], [.dense [12], .dense [12]]]

/-! ### Helper lemmas -/

theorem pySlice_length (l : List α) (a b : Nat) (hab : a ≤ b)
    (hb : b ≤ l.length) : (pySlice l a b).length = b - a := by
  simp [pySlice]
  omega

theorem mapE_ok_of (f : β → Except String γ) (m : β → γ) :
    ∀ l : List β, (∀ b ∈ l, f b = .ok (m b)) → mapE f l = .ok (l.map m) := by
  intro l
  induction l with
  | nil => intro _; rfl
  | cons b l ih =>
    intro h
    have hb := h b (List.mem_cons_self b l)
    have hl := ih fun c hc => h c (List.mem_cons_of_mem b hc)
    simp [mapE, hb, hl, bindE]

theorem csr_matrix_ok (triples : List (Int × Int × α)) (nrows ncols : Nat)
    (h : ∀ e ∈ triples,
      0 ≤ e.1 ∧ e.1 < (nrows : Int) ∧ 0 ≤ e.2.1 ∧ e.2.1 < (ncols : Int)) :
    csr_matrix triples nrows ncols =
      .ok ⟨nrows, ncols, triples.map fun e => (e.1.toNat, e.2.1.toNat, e.2.2)⟩ := by
  unfold csr_matrix
  rw [if_pos]
  rw [List.all_eq_true]
  intro e he
  exact decide_eq_true (h e he)

theorem sparseSel_mem (arr : ModelArray α) (t : String) (a b : Nat)
    (e : Int × Int × α) (he : e ∈ sparseSel arr t a b) :
    e ∈ sparseTriples arr t ∧ (a : Int) ≤ e.1 ∧ e.1 < (b : Int) := by
  unfold sparseSel at he
  have h1 := List.mem_of_mem_filter he
  have h2 := List.of_mem_filter he
  exact ⟨h1, of_decide_eq_true h2⟩

theorem sparseSel_col_mem (arr : ModelArray α) (t : String) (a b : Nat)
    (e : Int × Int × α) (he : e ∈ sparseSel arr t a b) :
    e.2.1 ∈ arr.sparseCols := by
  have h1 := (sparseSel_mem arr t a b e he).1
  unfold sparseTriples at h1
  have h2 := (List.of_mem_zip h1).2
  exact (List.of_mem_zip h2).1

theorem sparse_read_buffer_ok (g : SparseTileDBTensorGenerator α) (a b : Nat)
    (hcols : ∀ c ∈ g.arr.sparseCols, 0 ≤ c ∧ c < (g.row_shape.headD 0 : Int)) :
    g.read_buffer a b = .ok { g with buf_csrs := some (sparseBufOf g a b) } := by
  unfold SparseTileDBTensorGenerator.read_buffer
  rw [mapE_ok_of _ (fun t =>
    (⟨b - a, g.row_shape.headD 0,
      (sparseSel g.arr t a b).map fun e =>
        ((e.1 - (a : Int)).toNat, e.2.1.toNat, e.2.2)⟩ : Csr α))]
  · rfl
  · intro t _
    have h := csr_matrix_ok ((sparseSel g.arr t a b).map fun e =>
        (e.1 - (a : Int), e.2.1, e.2.2)) (b - a) (g.row_shape.headD 0) ?_
    · rw [h]
      congr 1
      simp [List.map_map]
    · intro e he
      rw [List.mem_map] at he
      obtain ⟨q, hq, rfl⟩ := he
      have hr := (sparseSel_mem g.arr t a b q hq).2
      have hc := hcols q.2.1 (sparseSel_col_mem g.arr t a b q hq)
      refine ⟨by omega, ?_, hc.1, hc.2⟩
      have hab : a ≤ b := by
        by_contra hab
        omega
      have : ((b - a : Nat) : Int) = (b : Int) - (a : Int) := by omega
      omega

theorem rowSlice_nrows (m : Csr α) (s e : Nat) (hse : s ≤ e)
    (he : e ≤ m.nrows) : (m.rowSlice s e).nrows = e - s := by
  unfold Csr.rowSlice
  simp only
  omega

theorem rowSlice_row_lt (m : Csr α) (s e : Nat) (q : Nat × Nat × α)
    (hq : q ∈ (m.rowSlice s e).entries) : q.1 < (m.rowSlice s e).nrows := by
  unfold Csr.rowSlice at hq ⊢
  simp only [List.mem_map] at hq
  obtain ⟨p, hp, rfl⟩ := hq
  rw [List.mem_filter, decide_eq_true_eq] at hp
  simp only
  omega

theorem mapE_ok_inv (f : β → Except String γ) :
    ∀ (l : List β) (r : List γ), mapE f l = .ok r →
      r.length = l.length ∧ ∀ c ∈ r, ∃ x ∈ l, f x = .ok c := by
  intro l
  induction l with
  | nil =>
    intro r h
    cases h
    simp
  | cons b l ih =>
    intro r h
    unfold mapE bindE at h
    cases hb : f b with
    | error msg => rw [hb] at h; cases h
    | ok c =>
      rw [hb] at h
      cases hl : mapE f l with
      | error msg => rw [hl] at h; cases h
      | ok cs =>
        rw [hl] at h
        cases h
        obtain ⟨h1, h2⟩ := ih cs hl
        constructor
        · simp [h1]
        · intro c' hc'
          rcases List.mem_cons.mp hc' with hc' | hc'
          · exact ⟨b, List.mem_cons_self b l, hc' ▸ hb⟩
          · obtain ⟨x, hx, hfx⟩ := h2 c' hc'
            exact ⟨x, List.mem_cons_of_mem b hx, hfx⟩

theorem csr_matrix_ok_inv (triples : List (Int × Int × α)) (nrows ncols : Nat)
    (m : Csr α) (h : csr_matrix triples nrows ncols = .ok m) :
    m.nrows = nrows ∧ m.ncols = ncols := by
  unfold csr_matrix at h
  split at h
  · cases h; exact ⟨rfl, rfl⟩
  · cases h

theorem sparse_read_buffer_inv (g g' : SparseTileDBTensorGenerator α)
    (a b : Nat) (h : g.read_buffer a b = .ok g') :
    ∃ csrs, g'.buf_csrs = some csrs ∧ csrs.length = g.attrs.length ∧
      (∀ m ∈ csrs, m.nrows = b - a ∧ m.ncols = g.row_shape.headD 0) ∧
      g'.attrs = g.attrs ∧ g'.attr_dtypes = g.attr_dtypes ∧
      g'.row_shape = g.row_shape := by
  unfold SparseTileDBTensorGenerator.read_buffer bindE at h
  cases hm : mapE (fun t =>
      csr_matrix ((sparseSel g.arr t a b).map fun e =>
          (e.1 - (a : Int), e.2.1, e.2.2)) (b - a) (g.row_shape.headD 0))
      g.attrs with
  | error msg => rw [hm] at h; cases h
  | ok csrs =>
    rw [hm] at h
    cases h
    obtain ⟨h1, h2⟩ := mapE_ok_inv _ _ _ hm
    refine ⟨csrs, rfl, h1, ?_, rfl, rfl, rfl⟩
    intro m hm'
    obtain ⟨t, _, hft⟩ := h2 m hm'
    exact csr_matrix_ok_inv _ _ _ _ hft

theorem dense_read_buffer_ok (g : TileDBNumpyGenerator α) (a b : Nat)
    (hb : b ≤ g.arr.rowCount) :
    g.read_buffer a b =
      .ok ⟨g.arr, g.attrs,
        some (g.attrs.map fun t => pySlice (g.arr.denseData t) a b)⟩ := by
  unfold TileDBNumpyGenerator.read_buffer denseRead
  rw [if_pos hb]
  rfl

/-! ### Claim theorems: generator-level claims -/

/-- Claim C6: constructing the sparse generator over any schema whose
dimensionality is not 2 raises the unsupported-schema error at construction,
before any data is read and with no partial state created, while over a
2-dimensional schema construction succeeds (with the buffer still unset). -/
theorem sparse_schema_guard (arr : ModelArray α) (attrs : List String) :
    (arr.schema.shape.length ≠ 2 →
      SparseTileDBTensorGenerator.init arr attrs =
        .error "NotImplementedError: Only 2D sparse tensors are currently supported") ∧
    (arr.schema.shape.length = 2 →
      ∃ g, SparseTileDBTensorGenerator.init arr attrs = .ok g ∧
        g.buf_csrs = none ∧ g.arr = arr ∧ g.attrs = attrs) := by
  constructor
  · intro h
    unfold SparseTileDBTensorGenerator.init
    rw [if_pos h]
  · intro h
    unfold SparseTileDBTensorGenerator.init
    rw [if_neg (by omega)]
    exact ⟨_, rfl, rfl, rfl, rfl⟩

/-- Witness for C6 at a 3-dimensional and at a 2-dimensional sparse schema. -/
theorem sparse_schema_guard_witness :
    (SparseTileDBTensorGenerator.init sArr3d ["data"] =
      .error "NotImplementedError: Only 2D sparse tensors are currently supported") ∧
    (∃ g, SparseTileDBTensorGenerator.init sArrEx ["data"] = .ok g ∧
      g.buf_csrs = none ∧ g.arr = sArrEx ∧ g.attrs = ["data"]) :=
  ⟨(sparse_schema_guard sArr3d ["data"]).1 (by decide),
   (sparse_schema_guard sArrEx ["data"]).2 (by decide)⟩

/-- Claim C9: for both generator variants, `iter_tensors` invoked before any
`read_buffer` fails with an `AttributeError` (the buffer attribute is unset)
rather than producing any tensor data. -/
theorem iter_tensors_before_read (arrd arrs : ModelArray α)
    (attrs1 attrs2 : List String) (s e : Nat)
    (g : SparseTileDBTensorGenerator α)
    (hg : SparseTileDBTensorGenerator.init arrs attrs2 = .ok g) :
    (TileDBNumpyGenerator.init arrd attrs1).iter_tensors s e =
      .error "AttributeError: _buf_arrays" ∧
    g.iter_tensors s e = .error "AttributeError: _buf_csrs" := by
  constructor
  · rfl
  · unfold SparseTileDBTensorGenerator.init at hg
    split at hg
    · cases hg
    · cases hg
      rfl

/-- Witness for C9 on concrete freshly constructed generators. -/
theorem iter_tensors_before_read_witness :
    (TileDBNumpyGenerator.init dArrEx ["data"]).iter_tensors 0 1 =
      .error "AttributeError: _buf_arrays" ∧
    SparseTileDBTensorGenerator.iter_tensors
      ⟨sArrEx, ["data"], "rows", "cols", [4], ["f64"], none⟩ 0 1 =
      .error "AttributeError: _buf_csrs" :=
  iter_tensors_before_read dArrEx sArrEx ["data"] ["data"] 0 1
    ⟨sArrEx, ["data"], "rows", "cols", [4], ["f64"], none⟩ rfl

/-- Claim C7: for a dense generator whose buffer was filled by `read_buffer`
over `[a, b)`, `iter_tensors` over an extract slice yields exactly one tensor
per attribute, in attribute declaration order, each equal to the buffered
tensor sliced to the (buffer-relative) extract slice, values untransformed. -/
theorem dense_iter_tensors_spec (arr : ModelArray α) (attrs : List String)
    (a b s e : Nat) (hb : b ≤ arr.rowCount) :
    ∃ g, (TileDBNumpyGenerator.init arr attrs).read_buffer a b = .ok g ∧
      g.iter_tensors s e =
        .ok (attrs.map fun t =>
          .dense (pySlice (pySlice (arr.denseData t) a b) s e)) ∧
      (attrs.map fun t =>
        MLTensor.dense (α := α) (pySlice (pySlice (arr.denseData t) a b) s e)).length
        = attrs.length := by
  refine ⟨_, dense_read_buffer_ok _ a b hb, ?_, by simp⟩
  unfold TileDBNumpyGenerator.iter_tensors
  simp [List.map_map]
  rfl

/-- Witness for C7 on the dense example array. -/
theorem dense_iter_tensors_spec_witness :
    ∃ g, (TileDBNumpyGenerator.init dArrEx ["data"]).read_buffer 0 3 = .ok g ∧
      g.iter_tensors 1 3 =
        .ok (["data"].map fun t =>
          .dense (pySlice (pySlice (dArrEx.denseData t) 0 3) 1 3)) ∧
      (["data"].map fun t =>
        MLTensor.dense (α := Nat) (pySlice (pySlice (dArrEx.denseData t) 0 3) 1 3)).length
        = ["data"].length :=
  dense_iter_tensors_spec dArrEx ["data"] 0 3 1 3 (by decide)

/-- Claim C2: for every sparse generator and read slice `[a, b)`,
`read_buffer` succeeds (when the stored column coordinates fit the row
shape), stores one CSR structure per requested attribute of shape
`(b - a, *row_shape)`, and each structure's entries are exactly the
coordinate tuples read from the store with `a` subtracted from every row
coordinate. -/
theorem sparse_read_buffer_spec (g : SparseTileDBTensorGenerator α) (a b : Nat)
    (hcols : ∀ c ∈ g.arr.sparseCols, 0 ≤ c ∧ c < (g.row_shape.headD 0 : Int)) :
    ∃ g', g.read_buffer a b = .ok g' ∧
      g'.buf_csrs = some (sparseBufOf g a b) ∧
      (sparseBufOf g a b).length = g.attrs.length ∧
      ∀ m ∈ sparseBufOf g a b, m.nrows = b - a ∧
        m.ncols = g.row_shape.headD 0 ∧
        ∃ t ∈ g.attrs, m.entries = (sparseSel g.arr t a b).map fun e =>
          ((e.1 - (a : Int)).toNat, e.2.1.toNat, e.2.2) := by
  refine ⟨_, sparse_read_buffer_ok g a b hcols, rfl, by simp [sparseBufOf], ?_⟩
  intro m hm
  unfold sparseBufOf at hm
  rw [List.mem_map] at hm
  obtain ⟨t, ht, rfl⟩ := hm
  exact ⟨rfl, rfl, t, ht, rfl⟩

/-- Witness for C2 on the sparse example array. -/
theorem sparse_read_buffer_spec_witness :
    ∃ g', sGenEx.read_buffer 0 2 = .ok g' ∧
      g'.buf_csrs = some (sparseBufOf sGenEx 0 2) ∧
      (sparseBufOf sGenEx 0 2).length = sGenEx.attrs.length ∧
      ∀ m ∈ sparseBufOf sGenEx 0 2, m.nrows = 2 - 0 ∧
        m.ncols = sGenEx.row_shape.headD 0 ∧
        ∃ t ∈ sGenEx.attrs, m.entries = (sparseSel sGenEx.arr t 0 2).map fun e =>
          ((e.1 - ((0 : Nat) : Int)).toNat, e.2.1.toNat, e.2.2) :=
  sparse_read_buffer_spec sGenEx 0 2 (by decide)

/-- Claim C3: after a sparse `read_buffer` over `[a, b)`, for every extract
slice `[s, e)` contained in the buffer, every coordinate tuple emitted by
`iter_tensors` has its row coordinate in `[0, e - s)` — row coordinates are
buffer-slice relative, never global. -/
theorem sparse_rebasing (g g' : SparseTileDBTensorGenerator α) (a b s e : Nat)
    (hread : g.read_buffer a b = .ok g') (hse : s ≤ e) (heb : e ≤ b - a) :
    ∃ ts, g'.iter_tensors s e = .ok ts ∧
      ∀ t ∈ ts, ∀ p ∈ t.coordList, p.1 < e - s := by
  obtain ⟨csrs, hbuf, hlen, hms, _, _, _⟩ := sparse_read_buffer_inv g g' a b hread
  unfold SparseTileDBTensorGenerator.iter_tensors
  rw [hbuf]
  refine ⟨_, rfl, ?_⟩
  intro t ht p hp
  rw [List.mem_map] at ht
  obtain ⟨q, hq, rfl⟩ := ht
  simp only [MLTensor.coordList, List.mem_map] at hp
  obtain ⟨en, hen, rfl⟩ := hp
  have h1 := rowSlice_row_lt q.1 s e en hen
  have h2 := rowSlice_nrows q.1 s e hse
    (by rw [(hms q.1 (List.of_mem_zip hq).1).1]; exact heb)
  rw [h2] at h1
  exact h1

/-- Witness for C3 on the sparse example array, buffered over `[0, 2)` and
extracted over `[0, 1)`. -/
theorem sparse_rebasing_witness :
    ∃ ts, sGenExRead.iter_tensors 0 1 = .ok ts ∧
      ∀ t ∈ ts, ∀ p ∈ t.coordList, p.1 < 1 - 0 :=
  sparse_rebasing sGenEx sGenExRead 0 2 0 1 rfl (by decide) (by decide)

/-- Claim C4: after a sparse `read_buffer` over `[a, b)`, for every extract
slice `[s, e)` contained in the buffer, `iter_tensors` yields one
sparse-tensor value per attribute whose coordinates form a two-column list
(one row/column pair per nonzero value) and whose dense shape is
`(e - s, *row_shape)`. -/
theorem sparse_iter_tensors_spec (g g' : SparseTileDBTensorGenerator α)
    (a b s e : Nat) (hread : g.read_buffer a b = .ok g')
    (hse : s ≤ e) (heb : e ≤ b - a)
    (hdt : g.attr_dtypes.length = g.attrs.length) :
    ∃ ts, g'.iter_tensors s e = .ok ts ∧ ts.length = g.attrs.length ∧
      ∀ t ∈ ts, ∃ d c dt, t = .sparse d c ((e - s) :: g.row_shape) dt ∧
        c.length = d.length := by
  obtain ⟨csrs, hbuf, hlen, hms, _, hdt', hrs⟩ :=
    sparse_read_buffer_inv g g' a b hread
  unfold SparseTileDBTensorGenerator.iter_tensors
  rw [hbuf]
  refine ⟨_, rfl, ?_, ?_⟩
  · rw [List.length_map, List.length_zip, hlen, hdt', hdt]
    exact Nat.min_self _
  · intro t ht
    rw [List.mem_map] at ht
    obtain ⟨q, hq, rfl⟩ := ht
    have h2 := rowSlice_nrows q.1 s e hse
      (by rw [(hms q.1 (List.of_mem_zip hq).1).1]; exact heb)
    refine ⟨(q.1.rowSlice s e).entries.map fun r => r.2.2,
      (q.1.rowSlice s e).entries.map fun r => (r.1, r.2.1), q.2, ?_,
      by rw [List.length_map, List.length_map]⟩
    show MLTensor.sparse ((q.1.rowSlice s e).entries.map fun r => r.2.2)
      ((q.1.rowSlice s e).entries.map fun r => (r.1, r.2.1))
      ((q.1.rowSlice s e).nrows :: g'.row_shape) q.2 = _
    rw [h2, hrs]

/-- Witness for C4 on the sparse example array, buffered over `[0, 2)` and
extracted over `[0, 2)`. -/
theorem sparse_iter_tensors_spec_witness :
    ∃ ts, sGenExRead.iter_tensors 0 2 = .ok ts ∧
      ts.length = sGenEx.attrs.length ∧
      ∀ t ∈ ts, ∃ d c dt, t = .sparse d c ((2 - 0) :: sGenEx.row_shape) dt ∧
        c.length = d.length :=
  sparse_iter_tensors_spec sGenEx sGenExRead 0 2 0 2 rfl (by decide)
    (by decide) (by decide)

/-! ### Well-formedness of stores and generator states, and the shape of the
produced batch sequence -/

/-- Well-formedness of a store over the iterated row range `[0, bound)`: a
dense array covers the range (its domain and its per-attribute data reach
`bound`); a sparse array has a 2-dimensional schema and column coordinates
inside the second dimension. -/
def StoreWF (arr : ModelArray α) (bound : Nat) : Prop :=
  if arr.schema.sparse then
    arr.schema.shape.length = 2 ∧
    ∀ c ∈ arr.sparseCols, 0 ≤ c ∧ c < (arr.schema.shape.getD 1 0 : Int)
  else
    bound ≤ arr.rowCount ∧ ∀ t, bound ≤ (arr.denseData t).length

/-- The immutable part of a generator state: it matches its array and
attribute list, its variant matches the array's sparsity flag, and (for the
sparse variant) the derived row shape and dtypes are the constructor's. -/
def GenStatic (g : TensorGen α) (arr : ModelArray α) (attrs : List String) :
    Prop :=
  match g with
  | .dense d => arr.schema.sparse = false ∧ d.arr = arr ∧ d.attrs = attrs
  | .sparse s => arr.schema.sparse = true ∧ s.arr = arr ∧ s.attrs = attrs ∧
      s.row_shape = arr.schema.shape.drop 1 ∧
      s.attr_dtypes.length = attrs.length

/-- The generator currently holds a buffer of `len` rows covering all
`nAttrs` attributes. -/
def GenLoaded (g : TensorGen α) (nAttrs len : Nat) : Prop :=
  match g with
  | .dense d => ∃ bufs, d.buf_arrays = some bufs ∧ bufs.length = nAttrs ∧
      ∀ x ∈ bufs, x.length = len
  | .sparse s => ∃ csrs, s.buf_csrs = some csrs ∧ csrs.length = nAttrs ∧
      ∀ m ∈ csrs, m.nrows = len

/-- Shape contract of the yielded batch sequence against the windower steps:
each yielded tuple is the feature tensors followed by the label tensors, with
one tensor per requested attribute, and every tensor's leading dimension is
the step's extract-slice length (the same for both streams). -/
inductive BatchShape (nx ny : Nat) :
    List (List (MLTensor α)) → List Batch → Prop
  | nil : BatchShape nx ny [] []
  | cons (xt yt : List (MLTensor α)) (b : Batch) (out : List (List (MLTensor α)))
      (rest : List Batch) :
      xt.length = nx → yt.length = ny →
      (∀ t ∈ xt, t.leadingDim = sliceLen b.x_buffer_slice) →
      (∀ t ∈ yt, t.leadingDim = sliceLen b.y_buffer_slice) →
      sliceLen b.x_buffer_slice = sliceLen b.y_buffer_slice →
      BatchShape nx ny out rest →
      BatchShape nx ny ((xt ++ yt) :: out) (b :: rest)

theorem shape_two (l : List Nat) (h : l.length = 2) :
    (l.drop 1).headD 0 = l.getD 1 0 := by
  obtain ⟨a, b, rfl⟩ := List.length_eq_two.mp h
  rfl

theorem gen_read_buffer_ok (g : TensorGen α) (arr : ModelArray α)
    (attrs : List String) (stop a c : Nat)
    (hst : GenStatic g arr attrs) (hwf : StoreWF arr stop)
    (hac : a ≤ c) (hcs : c ≤ stop) :
    ∃ g', g.read_buffer a c = .ok g' ∧ GenStatic g' arr attrs ∧
      GenLoaded g' attrs.length (c - a) := by
  cases g with
  | dense d =>
    obtain ⟨hsp, harr, hattrs⟩ := hst
    unfold StoreWF at hwf
    rw [hsp] at hwf
    simp only [Bool.false_eq_true, if_false] at hwf
    have hb : c ≤ d.arr.rowCount := by rw [harr]; omega
    refine ⟨.dense ⟨d.arr, d.attrs,
      some (d.attrs.map fun t => pySlice (d.arr.denseData t) a c)⟩, ?_, ?_, ?_⟩
    · simp only [TensorGen.read_buffer]
      rw [dense_read_buffer_ok d a c hb]
      rfl
    · exact ⟨hsp, harr, hattrs⟩
    · refine ⟨_, rfl, by simp [hattrs], ?_⟩
      intro x hx
      rw [List.mem_map] at hx
      obtain ⟨t, _, rfl⟩ := hx
      refine pySlice_length _ a c hac ?_
      rw [harr]
      have := hwf.2 t
      omega
  | sparse s =>
    obtain ⟨hsp, harr, hattrs, hrs, hdt⟩ := hst
    unfold StoreWF at hwf
    rw [hsp] at hwf
    simp only [if_true] at hwf
    have hcols : ∀ cc ∈ s.arr.sparseCols,
        0 ≤ cc ∧ cc < (s.row_shape.headD 0 : Int) := by
      intro cc hcc
      rw [harr] at hcc
      have h := hwf.2 cc hcc
      rw [hrs, shape_two _ hwf.1]
      exact h
    refine ⟨.sparse { s with buf_csrs := some (sparseBufOf s a c) }, ?_, ?_, ?_⟩
    · simp only [TensorGen.read_buffer]
      rw [sparse_read_buffer_ok s a c hcols]
      rfl
    · exact ⟨hsp, harr, hattrs, hrs, hdt⟩
    · refine ⟨_, rfl, by simp [sparseBufOf, hattrs], ?_⟩
      intro m hm
      unfold sparseBufOf at hm
      rw [List.mem_map] at hm
      obtain ⟨t, _, rfl⟩ := hm
      rfl

theorem gen_iter_tensors_ok (g : TensorGen α) (arr : ModelArray α)
    (attrs : List String) (len s e : Nat)
    (hst : GenStatic g arr attrs) (hld : GenLoaded g attrs.length len)
    (hse : s ≤ e) (hel : e ≤ len) :
    ∃ ts, g.iter_tensors s e = .ok ts ∧ ts.length = attrs.length ∧
      ∀ t ∈ ts, t.leadingDim = e - s := by
  cases g with
  | dense d =>
    obtain ⟨bufs, hbuf, hlen, hall⟩ := hld
    simp only [TensorGen.iter_tensors]
    unfold TileDBNumpyGenerator.iter_tensors
    rw [hbuf]
    refine ⟨_, rfl, by simp [hlen], ?_⟩
    intro t ht
    rw [List.mem_map] at ht
    obtain ⟨x, hx, rfl⟩ := ht
    unfold MLTensor.leadingDim
    refine pySlice_length x s e hse ?_
    rw [hall x hx]
    exact hel
  | sparse sp =>
    obtain ⟨csrs, hbuf, hlen, hall⟩ := hld
    simp only [TensorGen.iter_tensors]
    unfold SparseTileDBTensorGenerator.iter_tensors
    rw [hbuf]
    refine ⟨_, rfl, ?_, ?_⟩
    · rw [List.length_map, List.length_zip, hlen, hst.2.2.2.2]
      exact Nat.min_self _
    · intro t ht
      rw [List.mem_map] at ht
      obtain ⟨q, hq, rfl⟩ := ht
      show ((q.1.rowSlice s e).nrows :: sp.row_shape).headD 0 = e - s
      rw [List.headD_cons]
      refine rowSlice_nrows q.1 s e hse ?_
      rw [hall q.1 (List.of_mem_zip hq).1]
      exact hel

theorem stream_step_ok (arr : ModelArray α) (attrs : List String)
    (bufsz stop pos bs be : Nat) (g : TensorGen α)
    (hwf : StoreWF arr stop) (hb : 1 ≤ bufsz)
    (hbs : bs ≤ pos) (hbe : pos ≤ be) (hbe2 : be ≤ stop) (hps : pos < stop)
    (hst : GenStatic g arr attrs)
    (hld : pos < be → GenLoaded g attrs.length (be - bs)) :
    ∃ g', (match (refill bufsz stop pos bs be).1 with
            | some sl => g.read_buffer sl.1 sl.2
            | none => .ok g) = .ok g' ∧
      GenStatic g' arr attrs ∧
      GenLoaded g' attrs.length
        ((refill bufsz stop pos bs be).2.2 - (refill bufsz stop pos bs be).2.1) ∧
      (refill bufsz stop pos bs be).2.1 ≤ pos ∧
      pos < (refill bufsz stop pos bs be).2.2 ∧
      (refill bufsz stop pos bs be).2.2 ≤ stop := by
  unfold refill
  by_cases h : be ≤ pos
  · rw [if_pos h]
    simp only
    obtain ⟨g', hrun, hst', hld'⟩ := gen_read_buffer_ok g arr attrs stop pos
      (min (pos + bufsz) stop) hst hwf (by omega) (by omega)
    exact ⟨g', hrun, hst', hld', le_refl pos, by omega, by omega⟩
  · rw [if_neg h]
    simp only
    exact ⟨g, rfl, hst, hld (by omega), hbs, by omega, hbe2⟩

theorem iterBatchesAux_succ_pos (xbuf ybuf stop fuel : Nat) (s : WindowState)
    (h : s.pos < stop) :
    iterBatchesAux xbuf ybuf stop (fuel + 1) s =
      stepBatch xbuf ybuf stop s ::
        iterBatchesAux xbuf ybuf stop fuel (stepNext xbuf ybuf stop s) := by
  show (if s.pos < stop then
      stepBatch xbuf ybuf stop s ::
        iterBatchesAux xbuf ybuf stop fuel (stepNext xbuf ybuf stop s)
    else []) = _
  rw [if_pos h]

theorem iterBatchesAux_succ_neg (xbuf ybuf stop fuel : Nat) (s : WindowState)
    (h : ¬ s.pos < stop) :
    iterBatchesAux xbuf ybuf stop (fuel + 1) s = [] := by
  show (if s.pos < stop then
      stepBatch xbuf ybuf stop s ::
        iterBatchesAux xbuf ybuf stop fuel (stepNext xbuf ybuf stop s)
    else []) = _
  rw [if_neg h]

theorem runBatches_aux_ok (xA yA : ModelArray α) (xattrs yattrs : List String)
    (xbuf ybuf stop : Nat) (hxb : 1 ≤ xbuf) (hyb : 1 ≤ ybuf)
    (hwfx : StoreWF xA stop) (hwfy : StoreWF yA stop) :
    ∀ (fuel pos xbs xbe ybs ybe : Nat) (xg yg : TensorGen α),
      pos ≤ stop → stop ≤ fuel + pos →
      xbs ≤ pos → pos ≤ xbe → xbe ≤ stop →
      ybs ≤ pos → pos ≤ ybe → ybe ≤ stop →
      GenStatic xg xA xattrs → GenStatic yg yA yattrs →
      (pos < xbe → GenLoaded xg xattrs.length (xbe - xbs)) →
      (pos < ybe → GenLoaded yg yattrs.length (ybe - ybs)) →
      ∃ out,
        runBatches xg yg
          (iterBatchesAux xbuf ybuf stop fuel ⟨pos, xbs, xbe, ybs, ybe⟩) =
          .ok out ∧
        BatchShape xattrs.length yattrs.length out
          (iterBatchesAux xbuf ybuf stop fuel ⟨pos, xbs, xbe, ybs, ybe⟩) := by
  intro fuel
  induction fuel with
  | zero =>
    intro pos xbs xbe ybs ybe xg yg _ _ _ _ _ _ _ _ _ _ _ _
    exact ⟨[], rfl, .nil⟩
  | succ fuel ih =>
    intro pos xbs xbe ybs ybe xg yg hps hfuel hxbs hxbe hxbe2 hybs hybe hybe2
      hgx hgy hlx hly
    by_cases h : pos < stop
    · have hw : extractW xbuf ybuf stop ⟨pos, xbs, xbe, ybs, ybe⟩ =
          min ((refill xbuf stop pos xbs xbe).2.2 - pos)
            ((refill ybuf stop pos ybs ybe).2.2 - pos) := rfl
      have hbrx : (stepBatch xbuf ybuf stop ⟨pos, xbs, xbe, ybs, ybe⟩).x_read_slice =
          (refill xbuf stop pos xbs xbe).1 := rfl
      have hbry : (stepBatch xbuf ybuf stop ⟨pos, xbs, xbe, ybs, ybe⟩).y_read_slice =
          (refill ybuf stop pos ybs ybe).1 := rfl
      have hbx1 : (stepBatch xbuf ybuf stop ⟨pos, xbs, xbe, ybs, ybe⟩).x_buffer_slice.1 =
          pos - (refill xbuf stop pos xbs xbe).2.1 := rfl
      have hbx2 : (stepBatch xbuf ybuf stop ⟨pos, xbs, xbe, ybs, ybe⟩).x_buffer_slice.2 =
          pos - (refill xbuf stop pos xbs xbe).2.1 +
            extractW xbuf ybuf stop ⟨pos, xbs, xbe, ybs, ybe⟩ := rfl
      have hby1 : (stepBatch xbuf ybuf stop ⟨pos, xbs, xbe, ybs, ybe⟩).y_buffer_slice.1 =
          pos - (refill ybuf stop pos ybs ybe).2.1 := rfl
      have hby2 : (stepBatch xbuf ybuf stop ⟨pos, xbs, xbe, ybs, ybe⟩).y_buffer_slice.2 =
          pos - (refill ybuf stop pos ybs ybe).2.1 +
            extractW xbuf ybuf stop ⟨pos, xbs, xbe, ybs, ybe⟩ := rfl
      have hsn : stepNext xbuf ybuf stop ⟨pos, xbs, xbe, ybs, ybe⟩ =
          ⟨pos + extractW xbuf ybuf stop ⟨pos, xbs, xbe, ybs, ybe⟩,
           (refill xbuf stop pos xbs xbe).2.1, (refill xbuf stop pos xbs xbe).2.2,
           (refill ybuf stop pos ybs ybe).2.1, (refill ybuf stop pos ybs ybe).2.2⟩ := rfl
      obtain ⟨xg', hxrun, hxst, hxld, hx1, hx2, hx3⟩ :=
        stream_step_ok xA xattrs xbuf stop pos xbs xbe xg hwfx hxb
          hxbs hxbe hxbe2 h hgx hlx
      obtain ⟨yg', hyrun, hyst, hyld, hy1, hy2, hy3⟩ :=
        stream_step_ok yA yattrs ybuf stop pos ybs ybe yg hwfy hyb
          hybs hybe hybe2 h hgy hly
      obtain ⟨xt, hxiter, hxtlen, hxtdim⟩ :=
        gen_iter_tensors_ok xg' xA xattrs
          ((refill xbuf stop pos xbs xbe).2.2 - (refill xbuf stop pos xbs xbe).2.1)
          (pos - (refill xbuf stop pos xbs xbe).2.1)
          (pos - (refill xbuf stop pos xbs xbe).2.1 +
            extractW xbuf ybuf stop ⟨pos, xbs, xbe, ybs, ybe⟩)
          hxst hxld (by omega) (by omega)
      obtain ⟨yt, hyiter, hytlen, hytdim⟩ :=
        gen_iter_tensors_ok yg' yA yattrs
          ((refill ybuf stop pos ybs ybe).2.2 - (refill ybuf stop pos ybs ybe).2.1)
          (pos - (refill ybuf stop pos ybs ybe).2.1)
          (pos - (refill ybuf stop pos ybs ybe).2.1 +
            extractW xbuf ybuf stop ⟨pos, xbs, xbe, ybs, ybe⟩)
          hyst hyld (by omega) (by omega)
      obtain ⟨out, hout, hshape⟩ := ih
        (pos + extractW xbuf ybuf stop ⟨pos, xbs, xbe, ybs, ybe⟩)
        (refill xbuf stop pos xbs xbe).2.1 (refill xbuf stop pos xbs xbe).2.2
        (refill ybuf stop pos ybs ybe).2.1 (refill ybuf stop pos ybs ybe).2.2
        xg' yg' (by omega) (by omega) (by omega) (by omega) hx3
        (by omega) (by omega) hy3 hxst hyst (fun _ => hxld) (fun _ => hyld)
      rw [iterBatchesAux_succ_pos xbuf ybuf stop fuel ⟨pos, xbs, xbe, ybs, ybe⟩ h,
        hsn]
      refine ⟨(xt ++ yt) :: out, ?_, ?_⟩
      · unfold runBatches
        rw [hbrx, hbry, hbx1, hbx2, hby1, hby2, hxrun]
        simp only [bindE]
        rw [hyrun]
        simp only [bindE]
        rw [hxiter]
        simp only [bindE]
        rw [hyiter]
        simp only [bindE]
        rw [hout]
      · have hslx : sliceLen
            (stepBatch xbuf ybuf stop ⟨pos, xbs, xbe, ybs, ybe⟩).x_buffer_slice =
            extractW xbuf ybuf stop ⟨pos, xbs, xbe, ybs, ybe⟩ := by
          unfold sliceLen
          rw [hbx1, hbx2]
          omega
        have hsly : sliceLen
            (stepBatch xbuf ybuf stop ⟨pos, xbs, xbe, ybs, ybe⟩).y_buffer_slice =
            extractW xbuf ybuf stop ⟨pos, xbs, xbe, ybs, ybe⟩ := by
          unfold sliceLen
          rw [hby1, hby2]
          omega
        refine .cons xt yt _ out _ hxtlen hytlen ?_ ?_ ?_ hshape
        · intro t ht
          rw [hxtdim t ht, hslx]
          omega
        · intro t ht
          rw [hytdim t ht, hsly]
          omega
        · rw [hslx, hsly]
    · rw [iterBatchesAux_succ_neg xbuf ybuf stop fuel ⟨pos, xbs, xbe, ybs, ybe⟩ h]
      exact ⟨[], rfl, .nil⟩

theorem get_gen_ok (arr : ModelArray α) (attrs : List String) (stop : Nat)
    (hwf : StoreWF arr stop) :
    ∃ g, get_buffer_size_generator arr attrs = .ok g ∧
      GenStatic g arr attrs := by
  unfold get_buffer_size_generator
  cases hs : arr.schema.sparse with
  | false =>
    rw [if_neg (by simp [hs])]
    exact ⟨_, rfl, hs, rfl, rfl⟩
  | true =>
    rw [if_pos (by simp [hs])]
    unfold StoreWF at hwf
    rw [hs] at hwf
    simp only [if_true] at hwf
    unfold SparseTileDBTensorGenerator.init
    rw [if_neg (by omega)]
    exact ⟨_, rfl, hs, rfl, rfl, rfl, by simp⟩

theorem BatchShape_length {nx ny : Nat} {out : List (List (MLTensor α))}
    {bs : List Batch} (h : BatchShape nx ny out bs) : out.length = bs.length := by
  induction h with
  | nil => rfl
  | cons xt yt b out rest _ _ _ _ _ _ ih => simp [ih]

theorem run_ok_shape (x y : ModelArray α) (xbuf ybuf : Nat)
    (xattrs yattrs : List String) (start stop0 : Nat)
    (hxb : 1 ≤ xbuf) (hyb : 1 ≤ ybuf)
    (hwfx : StoreWF x (if stop0 = 0 then x.rowCount else stop0))
    (hwfy : StoreWF y (if stop0 = 0 then x.rowCount else stop0))
    (hso : start ≤ (if stop0 = 0 then x.rowCount else stop0)) :
    ∃ out,
      (tensor_generator x y xbuf ybuf xattrs yattrs start stop0).run = .ok out ∧
      BatchShape xattrs.length yattrs.length out
        (iter_batches xbuf ybuf start (if stop0 = 0 then x.rowCount else stop0)) := by
  obtain ⟨xg, hxg, hxst⟩ := get_gen_ok x xattrs _ hwfx
  obtain ⟨yg, hyg, hyst⟩ := get_gen_ok y yattrs _ hwfy
  obtain ⟨out, hout, hshape⟩ := runBatches_aux_ok x y xattrs yattrs xbuf ybuf
    (if stop0 = 0 then x.rowCount else stop0) hxb hyb hwfx hwfy
    ((if stop0 = 0 then x.rowCount else stop0) - start) start start start start
    start xg yg hso (by omega) (le_refl start) (le_refl start) hso
    (le_refl start) (le_refl start) hso hxst hyst
    (fun hc => absurd hc (lt_irrefl start)) (fun hc => absurd hc (lt_irrefl start))
  have hib : iter_batches xbuf ybuf start (if stop0 = 0 then x.rowCount else stop0) =
      iterBatchesAux xbuf ybuf (if stop0 = 0 then x.rowCount else stop0)
        ((if stop0 = 0 then x.rowCount else stop0) - start)
        ⟨start, start, start, start, start⟩ := rfl
  have hrun : (tensor_generator x y xbuf ybuf xattrs yattrs start stop0).run =
      bindE (get_buffer_size_generator x xattrs) fun xg =>
      bindE (get_buffer_size_generator y yattrs) fun yg =>
      runBatches xg yg (iter_batches xbuf ybuf start
        (if stop0 = 0 then x.rowCount else stop0)) := rfl
  refine ⟨out, ?_, hib ▸ hshape⟩
  rw [hrun, hxg]
  simp only [bindE]
  rw [hyg]
  simp only [bindE]
  rw [hib]
  exact hout

/-- Claim C5: every batch yielded by the sequencer is the feature-array
attribute tensors in declared order followed by the label-array attribute
tensors in declared order (`len(x_attrs)` then `len(y_attrs)` tensors), and
every tensor's leading dimension is that step's extract-slice length. -/
theorem batch_tuple_shape (x y : ModelArray α) (xbuf ybuf : Nat)
    (xattrs yattrs : List String) (start stop0 : Nat)
    (hxb : 1 ≤ xbuf) (hyb : 1 ≤ ybuf)
    (hwfx : StoreWF x (if stop0 = 0 then x.rowCount else stop0))
    (hwfy : StoreWF y (if stop0 = 0 then x.rowCount else stop0))
    (hso : start ≤ (if stop0 = 0 then x.rowCount else stop0)) :
    ∃ out,
      (tensor_generator x y xbuf ybuf xattrs yattrs start stop0).run = .ok out ∧
      BatchShape xattrs.length yattrs.length out
        (iter_batches xbuf ybuf start (if stop0 = 0 then x.rowCount else stop0)) :=
  run_ok_shape x y xbuf ybuf xattrs yattrs start stop0 hxb hyb hwfx hwfy hso

/-- Witness for C5 on a pair of dense example arrays with buffer sizes 2
over the full row range `[0, 3)`. -/
theorem batch_tuple_shape_witness :
    ∃ out,
      (tensor_generator dArrEx dArrEx 2 2 ["a"] ["b"] 0 0).run = .ok out ∧
      BatchShape (α := Nat) ["a"].length ["b"].length out
        (iter_batches 2 2 0 (if 0 = 0 then dArrEx.rowCount else 0)) :=
  batch_tuple_shape dArrEx dArrEx 2 2 ["a"] ["b"] 0 0 (by decide) (by decide)
    ⟨by decide, fun t => Nat.le.intro (k := 0) rfl⟩
    ⟨by decide, fun t => Nat.le.intro (k := 0) rfl⟩ (Nat.zero_le _)

/-- Counterexample to C1 as stated: the feature array has 1 row, the label
array has 3 rows, yet the sequencer neither fails at construction nor raises
any RowCountMismatch error — it produces a normal batch sequence. -/
theorem no_row_count_check_counterexample :
    dArrOne.rowCount ≠ dArrEx.rowCount ∧
    (tensor_generator dArrOne dArrEx 1 1 ["a"] ["b"] 0 0).run =
      .ok [[.dense [99], .dense [10]]] := by
  constructor
  · decide
  · rfl

/-- Claim C1 (amended): `tensor_generator` performs no row-count comparison
and raises no row-count error: on arrays whose row counts differ it still
constructs both generators and yields the full (nonempty) batch sequence
over `[0, x_array.shape[0])`; row-count validation is performed by the
enclosing data-loader layer, outside this module. -/
theorem no_row_count_check (x y : ModelArray α) (xbuf ybuf : Nat)
    (xattrs yattrs : List String)
    (hneq : x.rowCount ≠ y.rowCount)
    (hxb : 1 ≤ xbuf) (hyb : 1 ≤ ybuf)
    (hwfx : StoreWF x x.rowCount) (hwfy : StoreWF y x.rowCount)
    (hpos : 0 < x.rowCount) :
    ∃ out, (tensor_generator x y xbuf ybuf xattrs yattrs 0 0).run = .ok out ∧
      out ≠ [] := by
  have hif : (if (0 : Nat) = 0 then x.rowCount else 0) = x.rowCount := rfl
  obtain ⟨out, hout, hshape⟩ := run_ok_shape x y xbuf ybuf xattrs yattrs 0 0
    hxb hyb (hif ▸ hwfx) (hif ▸ hwfy) (Nat.zero_le _)
  refine ⟨out, hout, ?_⟩
  have hlen := BatchShape_length hshape
  have hbne : iter_batches xbuf ybuf 0
      (if (0 : Nat) = 0 then x.rowCount else 0) ≠ [] := by
    rw [hif]
    show iterBatchesAux xbuf ybuf x.rowCount (x.rowCount - 0) ⟨0, 0, 0, 0, 0⟩ ≠ []
    obtain ⟨m, hm⟩ : ∃ m, x.rowCount - 0 = m + 1 := ⟨x.rowCount - 1, by omega⟩
    rw [hm, iterBatchesAux_succ_pos xbuf ybuf x.rowCount m ⟨0, 0, 0, 0, 0⟩ hpos]
    exact List.cons_ne_nil _ _
  intro hnil
  rw [hnil] at hlen
  exact hbne (List.eq_nil_of_length_eq_zero hlen.symm)

/-- Witness for the amended C1: feature array with 1 row, label array with 3
rows, buffer size 1: the run succeeds and yields a nonempty sequence. -/
theorem no_row_count_check_witness :
    ∃ out, (tensor_generator dArrOne dArrEx 1 1 ["a"] ["b"] 0 0).run = .ok out ∧
      out ≠ [] :=
  no_row_count_check dArrOne dArrEx 1 1 ["a"] ["b"] (by decide) (by decide)
    (by decide) ⟨by decide, fun t => Nat.le.intro (k := 0) rfl⟩
    ⟨by decide, fun t => Nat.le.intro (k := 2) rfl⟩ (by decide)

/-- Claim C8: two-run determinism — two separate calls of `tensor_generator`
on the same inputs over the same (deterministic, pure) store produce the same
result, and whenever both runs succeed they yield the same number of batches
with identical tensor content in the same order. -/
theorem two_run_determinism (x y : ModelArray α) (xbuf ybuf : Nat)
    (xattrs yattrs : List String) (start stop0 : Nat) :
    (tensor_generator x y xbuf ybuf xattrs yattrs start stop0).run =
      (tensor_generator x y xbuf ybuf xattrs yattrs start stop0).run ∧
    ∀ out1 out2,
      (tensor_generator x y xbuf ybuf xattrs yattrs start stop0).run = .ok out1 →
      (tensor_generator x y xbuf ybuf xattrs yattrs start stop0).run = .ok out2 →
      out1.length = out2.length ∧ out1 = out2 := by
  refine ⟨rfl, ?_⟩
  intro out1 out2 h1 h2
  rw [h1] at h2
  cases h2
  exact ⟨rfl, rfl⟩

/-- Witness for C8: both (identical) runs over the dense example pair yield
`outEx8`, so the two traversals agree in length and content. -/
theorem two_run_determinism_witness :
    outEx8.length = outEx8.length ∧ outEx8 = outEx8 :=
  (two_run_determinism dArrEx dArrEx 2 2 ["a"] ["b"] 0 0).2 outEx8 outEx8
    rfl rfl

/-- Claim C10: calling `tensor_generator` does no work — it only packages
its arguments into a suspended generator, with no validation and no read;
the sparse 2-D schema check and the defaulting of a zero `stop_offset` to
`x_array.shape[0]` take effect only when the returned generator is driven,
so construction-time errors surface at first iteration, not at the call. -/
theorem lazy_generator_call (x y : ModelArray α) (xbuf ybuf : Nat)
    (xattrs yattrs : List String) (start stop0 : Nat)
    (hs : x.schema.sparse = true) (hn : x.schema.shape.length ≠ 2)
    (z : GenArgs α) (hz : z.stop_offset = 0) :
    tensor_generator x y xbuf ybuf xattrs yattrs start stop0 =
      ⟨x, y, xbuf, ybuf, xattrs, yattrs, start, stop0⟩ ∧
    (tensor_generator x y xbuf ybuf xattrs yattrs start stop0).run =
      .error "NotImplementedError: Only 2D sparse tensors are currently supported" ∧
    z.run = GenArgs.run { z with stop_offset := z.x_array.rowCount } := by
  refine ⟨rfl, ?_, ?_⟩
  · have hrun : (tensor_generator x y xbuf ybuf xattrs yattrs start stop0).run =
        bindE (get_buffer_size_generator x xattrs) fun xg =>
        bindE (get_buffer_size_generator y yattrs) fun yg =>
        runBatches xg yg (iter_batches xbuf ybuf start
          (if stop0 = 0 then x.rowCount else stop0)) := rfl
    rw [hrun]
    unfold get_buffer_size_generator
    rw [if_pos (by simp [hs])]
    unfold SparseTileDBTensorGenerator.init
    rw [if_pos hn]
    rfl
  · unfold GenArgs.run
    rw [hz]
    by_cases h0 : z.x_array.rowCount = 0
    · simp [h0]
    · simp [h0]

/-- Witness for C10: a 3-dimensional sparse feature array — the call itself
succeeds and only the drive fails; and a zero `stop_offset` drive equals the
drive with `stop_offset` set to the feature array's row count. -/
theorem lazy_generator_call_witness :
    tensor_generator sArr3d dArrEx 2 2 ["a"] ["b"] 0 0 =
      ⟨sArr3d, dArrEx, 2, 2, ["a"], ["b"], 0, 0⟩ ∧
    (tensor_generator sArr3d dArrEx 2 2 ["a"] ["b"] 0 0).run =
      .error "NotImplementedError: Only 2D sparse tensors are currently supported" ∧
    GenArgs.run (⟨dArrEx, dArrEx, 2, 2, ["a"], ["b"], 0, 0⟩ : GenArgs Nat) =
      GenArgs.run { (⟨dArrEx, dArrEx, 2, 2, ["a"], ["b"], 0, 0⟩ : GenArgs Nat) with
        stop_offset :=
          (⟨dArrEx, dArrEx, 2, 2, ["a"], ["b"], 0, 0⟩ : GenArgs Nat).x_array.rowCount } :=
  lazy_generator_call sArr3d dArrEx 2 2 ["a"] ["b"] 0 0 rfl (by decide)
    ⟨dArrEx, dArrEx, 2, 2, ["a"], ["b"], 0, 0⟩ rfl

end TileDBML
